import Mathlib

/-!
Verification of the Project Bootstrapper API usage-accounting and
quota-enforcement subsystem.

The development shallowly embeds the Python source:
  * `src/db.py`      — bounded connection pool (`PoolState`, `acquireConn`,
                       `releaseConn`, `scopedOp`);
  * `src/services.py`— storage layer and quota engine over an explicit
                       relational state `DB` (`increment_call_and_check_limit`,
                       `increment_project_and_check_limit`, preset CRUD);
  * `src/main.py`    — request gate (`require_api_key`) and endpoint
                       handlers (`add_preset`, `put_preset`, `remove_preset`,
                       `create_project`).

The database is modelled as lists of rows; `date.today()` becomes an explicit
`today : Date` argument. SQL statements are translated row by row: SELECT with
a WHERE clause is `List.find?` / `List.filter`, UPDATE is `List.map` guarded
by the WHERE predicate, INSERT appends a row carrying the next auto id,
DELETE filters, and SUM over a possibly empty result set (NULL coalesced to 0
by the source) is a fold starting at 0.
-/

/-- Calendar date (year, month, day). MySQL DATE comparison is chronological,
i.e. lexicographic on (year, month, day). -/
structure Date where
  year : Nat
  month : Nat
  day : Nat
deriving DecidableEq, Repr

/-- The SQL comparison `a <= b` on DATE columns: lexicographic order. -/
def Date.le (a b : Date) : Bool :=
  a.year < b.year ||
    (a.year == b.year && (a.month < b.month ||
      (a.month == b.month && a.day ≤ b.day)))

/-- Row of the `users` table. -/
structure User where
  id : Nat
  username : String
  email : String
  api_key : String
  tier : String
deriving DecidableEq, Repr

/-- Row of the `usage_logs` table. -/
structure UsageLog where
  id : Nat
  user_id : Nat
  log_date : Date
  calls_today : Nat
  projects_this_month : Nat
deriving DecidableEq, Repr

/-- Row of the `presets` table. -/
structure Preset where
  id : Nat
  user_id : Nat
  name : String
  template : String
  git_init : Bool
  use_venv : Bool
  license_type : Option String
deriving DecidableEq, Repr

/-- The relational state the services operate on: the three tables plus the
auto-increment counters for the two tables whose fresh ids matter. -/
structure DB where
  users : List User
  usage_logs : List UsageLog
  presets : List Preset
  next_log_id : Nat
  next_preset_id : Nat
deriving DecidableEq, Repr

/-- services.py `get_user_by_api_key`: `SELECT * FROM users WHERE api_key=%s`
with `fetchone` (first matching row). -/
def get_user_by_api_key (db : DB) (api_key : String) : Option User :=
  db.users.find? (fun u => u.api_key == api_key)

/-- The SELECT at services.py:40 and :65:
`SELECT ... FROM usage_logs WHERE user_id=%s AND log_date=%s`, `fetchone`. -/
def find_usage (db : DB) (uid : Nat) (d : Date) : Option UsageLog :=
  db.usage_logs.find? (fun r => r.user_id == uid && r.log_date == d)

/-- services.py lines 42-50 given the snapshot `r` produced by the SELECT at
line 40: the write half of `increment_call_and_check_limit`. Factoring the
function into a read phase and a commit phase lets the sequential function be
stated as read-then-commit on one state, and a racy interleaving as two reads
followed by two commits. -/
def dailyCommit (db : DB) (uid daily_limit : Nat) (today : Date)
    (r : Option UsageLog) : Bool × DB :=
  match r with
  | none =>
      (true, { db with
        usage_logs := db.usage_logs ++ [⟨db.next_log_id, uid, today, 1, 0⟩],
        next_log_id := db.next_log_id + 1 })
  | some r =>
      if r.calls_today + 1 > daily_limit then (false, db)
      else
        (true, { db with
          usage_logs := db.usage_logs.map (fun x =>
            if x.id == r.id then { x with calls_today := x.calls_today + 1 }
            else x) })

/-- services.py `increment_call_and_check_limit(user_id, daily_limit)`:
look up the row for (user, today); if absent insert it with `calls_today = 1`
and return true; if present and `calls_today + 1 > daily_limit` return false
without writing; otherwise increment `calls_today` and return true. -/
def increment_call_and_check_limit (db : DB) (uid daily_limit : Nat)
    (today : Date) : Bool × DB :=
  dailyCommit db uid daily_limit today (find_usage db uid today)

/-- services.py:55 `date(today.year, today.month, 1)`. -/
def first_of_month (today : Date) : Date := ⟨today.year, today.month, 1⟩

/-- The SELECT SUM at services.py:59-61:
`SELECT SUM(projects_this_month) FROM usage_logs WHERE user_id=%s AND
log_date >= %s`, with NULL coalesced to 0 by `r['total'] or 0`. -/
def month_total (db : DB) (uid : Nat) (first : Date) : Nat :=
  (db.usage_logs.filter
      (fun r => r.user_id == uid && Date.le first r.log_date)).foldl
    (fun acc r => acc + r.projects_this_month) 0

/-- services.py `increment_project_and_check_limit(user_id, month_limit)`:
sum `projects_this_month` over the rows of the user dated on or after the
first of the current month; reject if the sum plus one exceeds the limit;
otherwise find-or-create the row for today and increment its
`projects_this_month`. -/
def increment_project_and_check_limit (db : DB) (uid month_limit : Nat)
    (today : Date) : Bool × DB :=
  let first := first_of_month today
  let total := month_total db uid first
  if total + 1 > month_limit then (false, db)
  else
    match find_usage db uid today with
    | none =>
        (true, { db with
          usage_logs := db.usage_logs ++ [⟨db.next_log_id, uid, today, 0, 1⟩],
          next_log_id := db.next_log_id + 1 })
    | some row =>
        (true, { db with
          usage_logs := db.usage_logs.map (fun x =>
            if x.id == row.id then
              { x with projects_this_month := x.projects_this_month + 1 }
            else x) })

/-- services.py `create_preset`: INSERT then re-read by `LAST_INSERT_ID()`. -/
def create_preset (db : DB) (uid : Nat) (name template : String)
    (git_init use_venv : Bool) (license_type : Option String) : Preset × DB :=
  let p : Preset :=
    ⟨db.next_preset_id, uid, name, template, git_init, use_venv, license_type⟩
  (p, { db with presets := db.presets ++ [p],
                next_preset_id := db.next_preset_id + 1 })

/-- services.py `list_presets`: `SELECT * FROM presets WHERE user_id=%s`. -/
def list_presets (db : DB) (uid : Nat) : List Preset :=
  db.presets.filter (fun p => p.user_id == uid)

/-- services.py `get_preset`:
`SELECT * FROM presets WHERE id=%s AND user_id=%s`, `fetchone`. -/
def get_preset (db : DB) (uid preset_id : Nat) : Option Preset :=
  db.presets.find? (fun p => p.id == preset_id && p.user_id == uid)

/-- The `data` dict passed to services.py `update_preset`: for each column a
key may be present (with the new value) or absent. The `license_type` column
is itself nullable, hence the nested option. -/
structure PresetUpdate where
  name : Option String := none
  template : Option String := none
  git_init : Option Bool := none
  use_venv : Option Bool := none
  license_type : Option (Option String) := none
deriving DecidableEq, Repr

/-- Whether the `data` dict is empty: then services.py:106 builds an empty
SET clause and the UPDATE statement is malformed SQL. -/
def PresetUpdate.isEmpty (d : PresetUpdate) : Bool :=
  d.name.isNone && d.template.isNone && d.git_init.isNone &&
    d.use_venv.isNone && d.license_type.isNone

/-- The effect of the generated `UPDATE presets SET k1=%s,... ` on one row:
each supplied column takes the supplied value, every other column keeps its
stored value. -/
def applyUpdate (d : PresetUpdate) (p : Preset) : Preset :=
  { p with
    name := d.name.getD p.name
    template := d.template.getD p.template
    git_init := d.git_init.getD p.git_init
    use_venv := d.use_venv.getD p.use_venv
    license_type := d.license_type.getD p.license_type }

/-- services.py `update_preset(user_id, preset_id, data)`: run
`UPDATE presets SET <data> WHERE id=%s AND user_id=%s`, then return
`get_preset(user_id, preset_id)`. An empty `data` yields an empty SET clause,
which the database rejects as a syntax error (modelled as `Except.error`). -/
def update_preset (db : DB) (uid preset_id : Nat) (d : PresetUpdate) :
    Except String (Option Preset × DB) :=
  if d.isEmpty then Except.error "SQL syntax error: empty SET clause"
  else
    Except.ok (get_preset { db with
        presets := db.presets.map (fun p =>
          if p.id == preset_id && p.user_id == uid then applyUpdate d p
          else p) } uid preset_id,
      { db with
        presets := db.presets.map (fun p =>
          if p.id == preset_id && p.user_id == uid then applyUpdate d p
          else p) })

/-- services.py `delete_preset`:
`DELETE FROM presets WHERE id=%s AND user_id=%s`, returning `rowcount > 0`. -/
def delete_preset (db : DB) (uid preset_id : Nat) : Bool × DB :=
  let remaining :=
    db.presets.filter (fun p => !(p.id == preset_id && p.user_id == uid))
  (remaining.length < db.presets.length, { db with presets := remaining })

/-- utils.py `ALLOWED_FREE_TEMPLATES = {'flask', 'fastapi', 'basic-python'}`. -/
def ALLOWED_FREE_TEMPLATES : List String := ["flask", "fastapi", "basic-python"]

/-- FastAPI HTTPException: status code and detail string. -/
structure HTTPError where
  status_code : Nat
  detail : String
deriving DecidableEq, Repr

/-- Python truthiness test `if not x_api_key` at main.py:114: true for a
missing header and for an empty header value. -/
def headerMissing : Option String → Bool
  | none => true
  | some s => s == ""

/-- main.py `require_api_key`: reject 401 when the header is absent, 401 when
no user matches the key, run the daily quota check and reject 429 when it
returns false, otherwise hand the resolved user downstream. The returned `DB`
is the storage state after the gate ran (the quota check may have written). -/
def require_api_key (db : DB) (x_api_key : Option String)
    (daily_limit : Nat) (today : Date) : Except HTTPError User × DB :=
  if headerMissing x_api_key then
    (Except.error ⟨401, "Missing X-API-Key header"⟩, db)
  else
    match get_user_by_api_key db (x_api_key.getD "") with
    | none => (Except.error ⟨401, "Invalid API key"⟩, db)
    | some user =>
        let r := increment_call_and_check_limit db user.id daily_limit today
        if r.1 then (Except.ok user, r.2)
        else (Except.error ⟨429, "Daily API call limit exceeded"⟩, r.2)

/-- Request body `PresetIn` of main.py (also the shape of `CreateRequest`):
pydantic fills the optional flags with their defaults. -/
structure PresetIn where
  name : String
  template : String
  git_init : Bool := false
  use_venv : Bool := false
  license_type : Option String := none
deriving DecidableEq, Repr

/-- main.py `add_preset` (POST /presets): gate, then 403 for a template
outside the free set, then `create_preset`. -/
def add_preset (db : DB) (p : PresetIn) (x_api_key : Option String)
    (daily_limit : Nat) (today : Date) : Except HTTPError Preset × DB :=
  match require_api_key db x_api_key daily_limit today with
  | (Except.error e, db2) => (Except.error e, db2)
  | (Except.ok user, db2) =>
      if !(ALLOWED_FREE_TEMPLATES.contains p.template) then
        (Except.error ⟨403, "Template not allowed for free tier"⟩, db2)
      else
        let r := create_preset db2 user.id p.name p.template p.git_init
          p.use_venv p.license_type
        (Except.ok r.1, r.2)

/-- main.py:161 `payload.dict()`: a `PresetIn` body always supplies every
column, so the PUT endpoint performs a full overwrite. -/
def PresetIn.toUpdate (p : PresetIn) : PresetUpdate :=
  { name := some p.name, template := some p.template,
    git_init := some p.git_init, use_venv := some p.use_venv,
    license_type := some p.license_type }

/-- main.py `put_preset` (PUT /presets/{id}): gate, 403 for a disallowed
template, then `update_preset` with the full field set; 404 when the
post-update read finds no row. -/
def put_preset (db : DB) (preset_id : Nat) (payload : PresetIn)
    (x_api_key : Option String) (daily_limit : Nat) (today : Date) :
    Except HTTPError Preset × DB :=
  match require_api_key db x_api_key daily_limit today with
  | (Except.error e, db2) => (Except.error e, db2)
  | (Except.ok user, db2) =>
      if !(ALLOWED_FREE_TEMPLATES.contains payload.template) then
        (Except.error ⟨403, "Template not allowed for free tier"⟩, db2)
      else
        match update_preset db2 user.id preset_id payload.toUpdate with
        | Except.error _ => (Except.error ⟨500, "Internal Server Error"⟩, db2)
        | Except.ok (none, db3) =>
            (Except.error ⟨404, "Preset not found"⟩, db3)
        | Except.ok (some row, db3) => (Except.ok row, db3)

/-- main.py `remove_preset` (DELETE /presets/{id}): gate, then
`delete_preset`; 404 when no row was deleted. -/
def remove_preset (db : DB) (preset_id : Nat) (x_api_key : Option String)
    (daily_limit : Nat) (today : Date) : Except HTTPError Bool × DB :=
  match require_api_key db x_api_key daily_limit today with
  | (Except.error e, db2) => (Except.error e, db2)
  | (Except.ok user, db2) =>
      let r := delete_preset db2 user.id preset_id
      if r.1 then (Except.ok true, r.2)
      else (Except.error ⟨404, "Preset not found"⟩, r.2)

/-- A racy interleaving of two `increment_call_and_check_limit` calls for the
same user on the same day, each running on its own worker (main.py serves each
request on its own thread): both workers execute the SELECT at services.py:40
before either executes its write (lines 42-50). The plain SELECT takes no row
lock, so under the default MySQL isolation both transactions read the same
snapshot; the later UPDATE is `calls_today = calls_today + 1`, so both writes
land. -/
def racyDailyPair (db : DB) (uid daily_limit : Nat) (today : Date) :
    (Bool × Bool) × DB :=
  let s1 := find_usage db uid today
  let s2 := find_usage db uid today
  let r1 := dailyCommit db uid daily_limit today s1
  let r2 := dailyCommit r1.2 uid daily_limit today s2
  ((r1.1, r2.1), r2.2)

/-- `n` sequential calls of `increment_call_and_check_limit` for one user on
one day, returning the list of allow/deny decisions and the final state. -/
def dailySeq (db : DB) (uid daily_limit : Nat) (today : Date) :
    Nat → List Bool × DB
  | 0 => ([], db)
  | n + 1 =>
      let r := increment_call_and_check_limit db uid daily_limit today
      let rest := dailySeq r.2 uid daily_limit today n
      (r.1 :: rest.1, rest.2)

/-- The calls_today counter recorded for (user, day): 0 when no row exists. -/
def dailyCount (db : DB) (uid : Nat) (d : Date) : Nat :=
  match find_usage db uid d with
  | none => 0
  | some r => r.calls_today

/-- main.py `create_project` (POST /create), authorization prefix: gate, 403
for a disallowed template, then the monthly quota check with 429 on refusal;
on success the handler goes on to generate files (pure templating, out of the
core being verified), leaving the storage state as the quota check left it. -/
def create_project (db : DB) (req : PresetIn) (x_api_key : Option String)
    (daily_limit month_limit : Nat) (today : Date) :
    Except HTTPError Unit × DB :=
  match require_api_key db x_api_key daily_limit today with
  | (Except.error e, db2) => (Except.error e, db2)
  | (Except.ok user, db2) =>
      if !(ALLOWED_FREE_TEMPLATES.contains req.template) then
        (Except.error ⟨403, "Template not allowed for free tier"⟩, db2)
      else
        let r := increment_project_and_check_limit db2 user.id month_limit today
        if r.1 then (Except.ok (), r.2)
        else (Except.error ⟨429, "Monthly project limit exceeded"⟩, r.2)

/-!
Connection pool, db.py lines 18-74. The pool is a bounded queue of
connections; `get_conn` is a scoped acquire/use/release. Connections are
modelled by numeric ids; whether a connection is still open at release time
is an input to the model. The flag `createOk` models whether
`_create_connection` (db.py:22-30) succeeds: in the source it always raises
`NameError`, because line 27 reads the name `MYSQL_DB` while line 14 defined
the configuration value under the name `MYSQLDATABASE`; the intended behavior
has `createOk = true`.
-/

/-- The module state of db.py: the queue `_pool` of idle connection ids, the
next fresh connection id, and `POOL_MAX`. -/
structure PoolState where
  pool : List Nat
  nextId : Nat
  maxConn : Nat
deriving DecidableEq, Repr

/-- What the acquire half of `get_conn` handed the caller: a pooled
connection (`borrowed = True`), a direct fallback connection opened after the
queue timeout (`borrowed = False`), or an escaped exception when the fallback
open itself fails. -/
inductive AcqResult
  | pooled (c : Nat)
  | fallback (c : Nat)
  | crash
deriving DecidableEq, Repr

/-- db.py:49-56. `_pool.get(block=True, timeout=5)` succeeds exactly when a
connection is available within the wait; the sequential abstraction takes the
head when the queue is nonempty and times out otherwise. On timeout the
source opens a direct connection, which in the literal source
(`createOk = false`) raises instead. -/
def acquireConn (createOk : Bool) (s : PoolState) : AcqResult × PoolState :=
  match s.pool with
  | c :: rest => (AcqResult.pooled c, { s with pool := rest })
  | [] =>
      if createOk then
        (AcqResult.fallback s.nextId, { s with nextId := s.nextId + 1 })
      else (AcqResult.crash, s)

/-- db.py:59-74, the finally block. A pooled connection still open goes back
on the queue; a pooled dead connection is replaced by a fresh one — unless
`_create_connection` raises, in which case the outer `except: pass` at
line 73 swallows the error and nothing is put back; a fallback connection is
closed and never enqueued. `usable` is `conn.open` at release time. -/
def releaseConn (createOk : Bool) (s : PoolState) (r : AcqResult)
    (usable : Bool) : PoolState :=
  match r with
  | AcqResult.pooled c =>
      if usable then { s with pool := s.pool ++ [c] }
      else if createOk then
        { s with pool := s.pool ++ [s.nextId], nextId := s.nextId + 1 }
      else s
  | AcqResult.fallback _ => s
  | AcqResult.crash => s

/-- One complete scoped use of `get_conn`: acquire, run the operation (which
may leave the connection broken: `usable` is its state at release), release. -/
def scopedOp (createOk : Bool) (s : PoolState) (usable : Bool) : PoolState :=
  let a := acquireConn createOk s
  releaseConn createOk a.2 a.1 usable

/-- Interleaved-execution state: the pool plus the connections currently
handed out to in-flight operations. -/
structure PoolWorld where
  st : PoolState
  outstanding : List AcqResult
deriving DecidableEq, Repr

/-- An event of the interleaved pool history: some worker acquires, or the
worker holding the i-th outstanding connection releases it. -/
inductive PoolEvent
  | acq
  | rel (i : Nat) (usable : Bool)
deriving DecidableEq, Repr

/-- One step of the interleaved history. -/
def poolStep (createOk : Bool) (w : PoolWorld) : PoolEvent → PoolWorld
  | PoolEvent.acq =>
      let a := acquireConn createOk w.st
      { st := a.2, outstanding := w.outstanding ++ [a.1] }
  | PoolEvent.rel i usable =>
      match w.outstanding.get? i with
      | none => w
      | some r =>
          { st := releaseConn createOk w.st r usable,
            outstanding := w.outstanding.eraseIdx i }

/-- Run a history of acquire/release events. -/
def poolRun (createOk : Bool) (w : PoolWorld) (evs : List PoolEvent) :
    PoolWorld :=
  evs.foldl (poolStep createOk) w

/-- Whether an outstanding handle is a pooled borrow. -/
def AcqResult.isPooled : AcqResult → Bool
  | AcqResult.pooled _ => true
  | _ => false

/-- Connections attributable to the pool: idle ones plus pooled borrows that
are still out. This quantity never grows, which bounds the queue length. -/
def poolFootprint (w : PoolWorld) : Nat :=
  w.st.pool.length + (w.outstanding.filter AcqResult.isPooled).length

/-- Spec-side transcription for the monthly axis, C4: a row is counted when
its `log_date` is on or after the first day of the current calendar month
(dates compared chronologically, first day of the month = day 1). -/
def onOrAfterFirstOfMonth (today d : Date) : Prop :=
  today.year < d.year ∨
    (today.year = d.year ∧
      (today.month < d.month ∨ (today.month = d.month ∧ 1 ≤ d.day)))

instance (today d : Date) : Decidable (onOrAfterFirstOfMonth today d) := by
  unfold onOrAfterFirstOfMonth; infer_instance

/-- Spec-side transcription, C4: the monthly project total of a user is the
sum of `projects_this_month` over exactly those of the user's UsageLog rows
whose `log_date` is on or after the first day of the current month. -/
def spec_monthly_total (db : DB) (uid : Nat) (today : Date) : Nat :=
  ((db.usage_logs.filter (fun r =>
      decide (r.user_id = uid ∧ onOrAfterFirstOfMonth today r.log_date))).map
    (fun r => r.projects_this_month)).sum

/-!  Theorems.  -/

/-- Two booleans agreeing as propositions are equal. -/
theorem bool_ext {a b : Bool} (h : a = true ↔ b = true) : a = b := by
  cases a <;> cases b <;> simp_all

/-- `find?` commutes with a map that does not disturb the predicate. -/
theorem find?_map_inv {α : Type} (f : α → α) (p : α → Bool) (l : List α)
    (hp : ∀ x, p (f x) = p x) : (l.map f).find? p = (l.find? p).map f := by
  rw [List.find?_map]
  have he : (p ∘ f) = p := funext hp
  rw [he]

/-- After the INSERT at services.py:43 (or :68), the row for (user, today)
is found, and it is the freshly inserted one. -/
theorem find_usage_insert (db : DB) (uid : Nat) (today : Date) (c pr : Nat)
    (h : find_usage db uid today = none) :
    find_usage { db with
        usage_logs := db.usage_logs ++ [⟨db.next_log_id, uid, today, c, pr⟩],
        next_log_id := db.next_log_id + 1 } uid today =
      some ⟨db.next_log_id, uid, today, c, pr⟩ := by
  unfold find_usage at h ⊢
  simp [List.find?_append, h]

/-- After the UPDATE at services.py:48, the row found for (user, today) is
the old one with `calls_today` bumped. -/
theorem find_usage_update_calls (db : DB) (uid : Nat) (today : Date)
    (r : UsageLog) (h : find_usage db uid today = some r) :
    find_usage { db with
        usage_logs := db.usage_logs.map (fun x =>
          if x.id == r.id then { x with calls_today := x.calls_today + 1 }
          else x) } uid today =
      some { r with calls_today := r.calls_today + 1 } := by
  unfold find_usage at h ⊢
  rw [find?_map_inv _ _ _ ?hp]
  · rw [h]; simp
  case hp =>
    intro x
    by_cases hx : (x.id == r.id) = true <;> simp [hx]

/-- Claim C2: if no UsageLog row exists yet for (user, today), the daily
quota check inserts a row with `calls_today = 1` and returns true whatever
the daily limit is — in particular the first call of the day is allowed even
when the limit is 0. -/
theorem first_call_of_day_always_allowed (db : DB) (uid daily_limit : Nat)
    (today : Date) (h : find_usage db uid today = none) :
    (increment_call_and_check_limit db uid daily_limit today).1 = true ∧
    find_usage (increment_call_and_check_limit db uid daily_limit today).2
        uid today = some ⟨db.next_log_id, uid, today, 1, 0⟩ := by
  unfold increment_call_and_check_limit
  rw [h]
  exact ⟨rfl, find_usage_insert db uid today 1 0 h⟩

/-- Witness for C2: a fresh user on an empty store with daily limit 0. -/
theorem first_call_of_day_always_allowed_witness :
    (increment_call_and_check_limit ⟨[], [], [], 0, 0⟩ 7 0 ⟨2026, 10, 12⟩).1
        = true ∧
    find_usage (increment_call_and_check_limit
        ⟨[], [], [], 0, 0⟩ 7 0 ⟨2026, 10, 12⟩).2 7 ⟨2026, 10, 12⟩ =
      some ⟨0, 7, ⟨2026, 10, 12⟩, 1, 0⟩ :=
  first_call_of_day_always_allowed ⟨[], [], [], 0, 0⟩ 7 0 ⟨2026, 10, 12⟩
    (by decide)

/-- Claim C3: a rejected quota check mutates nothing: on the daily axis, a
row at or over the limit makes `increment_call_and_check_limit` return false
with the state unchanged; on the monthly axis, a month sum at or over the
limit makes `increment_project_and_check_limit` return false with the state
unchanged. -/
theorem rejected_call_not_counted (db : DB)
    (uid daily_limit month_limit : Nat) (today : Date) (r : UsageLog)
    (h1 : find_usage db uid today = some r)
    (h2 : r.calls_today + 1 > daily_limit)
    (h3 : month_total db uid (first_of_month today) + 1 > month_limit) :
    increment_call_and_check_limit db uid daily_limit today = (false, db) ∧
    increment_project_and_check_limit db uid month_limit today =
      (false, db) := by
  constructor
  · unfold increment_call_and_check_limit
    rw [h1]
    simp [dailyCommit, h2]
  · unfold increment_project_and_check_limit
    simp [h3]

/-- Witness for C3: a user already at 5 calls and 5 projects with both
limits at 3. -/
theorem rejected_call_not_counted_witness :
    increment_call_and_check_limit
        ⟨[], [⟨0, 1, ⟨2026, 10, 12⟩, 5, 5⟩], [], 1, 0⟩ 1 3 ⟨2026, 10, 12⟩ =
      (false, ⟨[], [⟨0, 1, ⟨2026, 10, 12⟩, 5, 5⟩], [], 1, 0⟩) ∧
    increment_project_and_check_limit
        ⟨[], [⟨0, 1, ⟨2026, 10, 12⟩, 5, 5⟩], [], 1, 0⟩ 1 3 ⟨2026, 10, 12⟩ =
      (false, ⟨[], [⟨0, 1, ⟨2026, 10, 12⟩, 5, 5⟩], [], 1, 0⟩) :=
  rejected_call_not_counted ⟨[], [⟨0, 1, ⟨2026, 10, 12⟩, 5, 5⟩], [], 1, 0⟩
    1 3 3 ⟨2026, 10, 12⟩ ⟨0, 1, ⟨2026, 10, 12⟩, 5, 5⟩
    (by decide) (by decide) (by decide)

/-- The SQL date filter of services.py:59 agrees with the spec wording
"on or after the first day of the current calendar month". -/
theorem date_le_first_eq (today d : Date) :
    Date.le (first_of_month today) d = decide (onOrAfterFirstOfMonth today d) := by
  apply bool_ext
  simp [Date.le, first_of_month, onOrAfterFirstOfMonth]

/-- Folding addition of a projection equals the sum of the mapped list. -/
theorem foldl_add_proj (l : List UsageLog) (c : Nat) :
    l.foldl (fun acc r => acc + r.projects_this_month) c =
      c + (l.map (fun r => r.projects_this_month)).sum := by
  induction l generalizing c with
  | nil => simp
  | cons a t ih => simp [ih, List.sum_cons]; omega

/-- Claim C4: the monthly total consulted by the monthly quota check is the
sum of `projects_this_month` over exactly the rows of the user dated on or
after the first day of the current month (so earlier months contribute
nothing and every current-month day is included), and the check refuses
exactly when that total plus one exceeds the limit. -/
theorem monthly_total_spec (db : DB) (uid month_limit : Nat) (today : Date) :
    month_total db uid (first_of_month today) =
      spec_monthly_total db uid today ∧
    (increment_project_and_check_limit db uid month_limit today).1 =
      decide (month_total db uid (first_of_month today) + 1 ≤ month_limit) := by
  have hfil : db.usage_logs.filter (fun r =>
        r.user_id == uid && Date.le (first_of_month today) r.log_date) =
      db.usage_logs.filter (fun r =>
        decide (r.user_id = uid ∧ onOrAfterFirstOfMonth today r.log_date)) := by
    apply List.filter_congr
    intro r _
    apply bool_ext
    simp [Date.le, first_of_month, onOrAfterFirstOfMonth]
  constructor
  · unfold month_total spec_monthly_total
    rw [hfil, foldl_add_proj]
    simp
  · unfold increment_project_and_check_limit
    by_cases h : month_total db uid (first_of_month today) + 1 > month_limit
    · simp only [h, if_true, decide_eq_false (by omega : ¬(month_total db uid
        (first_of_month today) + 1 ≤ month_limit))]
    · simp only [h, if_false]
      rw [decide_eq_true (by omega : month_total db uid
        (first_of_month today) + 1 ≤ month_limit)]
      cases find_usage db uid today <;> rfl

/-- One-step unfolding of `dailySeq`. -/
theorem dailySeq_succ (db : DB) (uid daily_limit : Nat) (today : Date)
    (n : Nat) :
    dailySeq db uid daily_limit today (n + 1) =
      ((increment_call_and_check_limit db uid daily_limit today).1 ::
        (dailySeq (increment_call_and_check_limit db uid daily_limit today).2
          uid daily_limit today n).1,
       (dailySeq (increment_call_and_check_limit db uid daily_limit today).2
          uid daily_limit today n).2) := rfl

/-- From a state whose (user, today) row is present with count `c`, a run of
`m` sequential daily checks yields `min m (limit - c)` allowed calls followed
by denials. -/
theorem daily_seq_from_row (uid daily_limit : Nat) (today : Date) :
    ∀ (m : Nat) (db : DB) (r : UsageLog), find_usage db uid today = some r →
      (dailySeq db uid daily_limit today m).1 =
        List.replicate (min m (daily_limit - r.calls_today)) true ++
          List.replicate (m - (daily_limit - r.calls_today)) false := by
  intro m
  induction m with
  | zero => intro db r _; simp [dailySeq]
  | succ n ih =>
    intro db r h
    by_cases hc : r.calls_today + 1 > daily_limit
    · have hstep : increment_call_and_check_limit db uid daily_limit today =
          (false, db) := by
        unfold increment_call_and_check_limit
        rw [h]
        simp [dailyCommit, hc]
      have h0 : daily_limit - r.calls_today = 0 := by omega
      simp only [dailySeq, hstep]
      rw [ih db r h]
      simp [h0, List.replicate_succ]
    · have hstep : increment_call_and_check_limit db uid daily_limit today =
          (true, { db with usage_logs := db.usage_logs.map (fun x =>
            if x.id == r.id then { x with calls_today := x.calls_today + 1 }
            else x) }) := by
        unfold increment_call_and_check_limit
        rw [h]
        simp [dailyCommit, hc]
      have hfind2 := find_usage_update_calls db uid today r h
      simp only [dailySeq, hstep]
      rw [ih _ _ hfind2]
      have e1 : min (n + 1) (daily_limit - r.calls_today) =
          min n (daily_limit - (r.calls_today + 1)) + 1 := by omega
      have e2 : (n + 1) - (daily_limit - r.calls_today) =
          n - (daily_limit - (r.calls_today + 1)) := by omega
      rw [e1, e2, List.replicate_succ]
      simp

/-- Counterexample to claim C1 as stated: with `dailyLimit = 0` the claim
predicts the single call of the day is rejected, yet the code allows it
(the absent-row branch of services.py:42 returns true unconditionally). -/
theorem daily_seq_limit_zero_first_call_allowed :
    (dailySeq ⟨[], [], [], 0, 0⟩ 1 0 ⟨2026, 10, 12⟩ (0 + 1)).1 = [true] ∧
    (dailySeq ⟨[], [], [], 0, 0⟩ 1 0 ⟨2026, 10, 12⟩ (0 + 1)).1 ≠
      List.replicate 0 true ++ List.replicate 1 false := by
  decide

/-- Claim C1 amended: for every daily limit `N ≥ 1`, a user issuing
sequential calls on one fresh day gets exactly the first `N` allowed and
every later call rejected (`K ≥ 1` further calls all return false). For
`N = 0` the code instead allows the first call of the day. -/
theorem daily_seq_exact_quota (db : DB) (uid N K : Nat) (today : Date)
    (h0 : find_usage db uid today = none) (hN : 1 ≤ N) (hK : 1 ≤ K) :
    (dailySeq db uid N today (N + K)).1 =
      List.replicate N true ++ List.replicate K false := by
  obtain ⟨n, rfl⟩ : ∃ n, N = n + 1 := ⟨N - 1, by omega⟩
  obtain ⟨k, rfl⟩ : ∃ k, K = k + 1 := ⟨K - 1, by omega⟩
  have hm : n + 1 + (k + 1) = (n + k + 1) + 1 := by omega
  rw [hm]
  have hstep : increment_call_and_check_limit db uid (n + 1) today =
      (true, { db with
        usage_logs := db.usage_logs ++ [⟨db.next_log_id, uid, today, 1, 0⟩],
        next_log_id := db.next_log_id + 1 }) := by
    unfold increment_call_and_check_limit
    rw [h0]
    rfl
  have hfind1 := find_usage_insert db uid today 1 0 h0
  rw [dailySeq_succ, hstep]
  rw [daily_seq_from_row uid (n + 1) today (n + k + 1) _ _ hfind1]
  have e1 : min (n + k + 1) (n + 1 - 1) = n := by omega
  have e2 : (n + k + 1) - (n + 1 - 1) = k + 1 := by omega
  simp only [e1, e2]
  simp [List.replicate_succ]

/-- Witness for the amended C1: limit 3, five sequential calls on a fresh
day give three allowed then two rejected. -/
theorem daily_seq_exact_quota_witness :
    (dailySeq ⟨[], [], [], 0, 0⟩ 1 3 ⟨2026, 10, 12⟩ 5).1 =
      List.replicate 3 true ++ List.replicate 2 false :=
  daily_seq_exact_quota ⟨[], [], [], 0, 0⟩ 1 3 2 ⟨2026, 10, 12⟩
    (by decide) (by decide) (by decide)

/-- Claim C5 fails on the code: with `dailyLimit = 1` and an existing row at
`calls_today = 0`, the interleaving in which both workers run the SELECT of
services.py:40 before either runs its write lets both calls return true —
two successes where the claim allows exactly one — and the stored counter
ends at 2. The read-check-write sequence is not serialized per (user, day). -/
theorem racy_daily_pair_exceeds_limit :
    (racyDailyPair ⟨[], [⟨0, 1, ⟨2026, 10, 12⟩, 0, 0⟩], [], 1, 0⟩
        1 1 ⟨2026, 10, 12⟩).1 = (true, true) ∧
    dailyCount (racyDailyPair ⟨[], [⟨0, 1, ⟨2026, 10, 12⟩, 0, 0⟩], [], 1, 0⟩
        1 1 ⟨2026, 10, 12⟩).2 1 ⟨2026, 10, 12⟩ = 2 := by
  decide

/-- Claim C6 fails on the code as written: `_create_connection` (db.py:27)
reads the undefined name `MYSQL_DB` (the value was bound as `MYSQLDATABASE`
on db.py:14) and so always raises NameError. Consequently, releasing a
broken pooled connection puts nothing back (the NameError is swallowed at
db.py:73 and the pool shrinks — here from one connection to zero), and the
timeout-fallback path raises instead of opening a direct connection. With a
working `_create_connection` (`createOk = true`, the spec intent) the same
release inserts a fresh replacement and the pool size stays constant. -/
theorem release_replacement_never_happens :
    releaseConn false ⟨[], 7, 5⟩ (AcqResult.pooled 3) false = ⟨[], 7, 5⟩ ∧
    scopedOp false ⟨[3], 7, 5⟩ false = ⟨[], 7, 5⟩ ∧
    scopedOp true ⟨[3], 7, 5⟩ false = ⟨[7], 8, 5⟩ ∧
    (acquireConn false ⟨[], 7, 5⟩).1 = AcqResult.crash := by
  decide

/-- Claim C7: the Request Gate processes every protected request in order —
absent API-key header gives 401; unknown key gives 401; a refused daily
quota check gives 429 (after the counter ran); otherwise the resolved user
is passed downstream. Project creation additionally consults the monthly
quota check, answering 429 when it refuses and proceeding when it allows. -/
theorem request_gate_protocol
    (daily_limit month_limit : Nat) (today : Date)
    (db1 : DB)
    (db2 : DB) (k2 : String) (h2a : (k2 == "") = false)
    (h2b : get_user_by_api_key db2 k2 = none)
    (db3 : DB) (k3 : String) (u3 : User) (h3a : (k3 == "") = false)
    (h3b : get_user_by_api_key db3 k3 = some u3)
    (h3c : (increment_call_and_check_limit db3 u3.id daily_limit today).1
      = false)
    (db4 : DB) (k4 : String) (u4 : User) (h4a : (k4 == "") = false)
    (h4b : get_user_by_api_key db4 k4 = some u4)
    (h4c : (increment_call_and_check_limit db4 u4.id daily_limit today).1
      = true)
    (req : PresetIn)
    (hreq : ALLOWED_FREE_TEMPLATES.contains req.template = true)
    (h4d : (increment_project_and_check_limit
        (increment_call_and_check_limit db4 u4.id daily_limit today).2
        u4.id month_limit today).1 = false)
    (db5 : DB) (k5 : String) (u5 : User) (h5a : (k5 == "") = false)
    (h5b : get_user_by_api_key db5 k5 = some u5)
    (h5c : (increment_call_and_check_limit db5 u5.id daily_limit today).1
      = true)
    (h5d : (increment_project_and_check_limit
        (increment_call_and_check_limit db5 u5.id daily_limit today).2
        u5.id month_limit today).1 = true) :
    require_api_key db1 none daily_limit today =
      (Except.error ⟨401, "Missing X-API-Key header"⟩, db1) ∧
    require_api_key db2 (some k2) daily_limit today =
      (Except.error ⟨401, "Invalid API key"⟩, db2) ∧
    require_api_key db3 (some k3) daily_limit today =
      (Except.error ⟨429, "Daily API call limit exceeded"⟩,
        (increment_call_and_check_limit db3 u3.id daily_limit today).2) ∧
    require_api_key db4 (some k4) daily_limit today =
      (Except.ok u4,
        (increment_call_and_check_limit db4 u4.id daily_limit today).2) ∧
    create_project db4 req (some k4) daily_limit month_limit today =
      (Except.error ⟨429, "Monthly project limit exceeded"⟩,
        (increment_project_and_check_limit
          (increment_call_and_check_limit db4 u4.id daily_limit today).2
          u4.id month_limit today).2) ∧
    create_project db5 req (some k5) daily_limit month_limit today =
      (Except.ok (),
        (increment_project_and_check_limit
          (increment_call_and_check_limit db5 u5.id daily_limit today).2
          u5.id month_limit today).2) := by
  have g2 : require_api_key db2 (some k2) daily_limit today =
      (Except.error ⟨401, "Invalid API key"⟩, db2) := by
    simp [require_api_key, headerMissing, h2a, h2b]
  have g3 : require_api_key db3 (some k3) daily_limit today =
      (Except.error ⟨429, "Daily API call limit exceeded"⟩,
        (increment_call_and_check_limit db3 u3.id daily_limit today).2) := by
    simp [require_api_key, headerMissing, h3a, h3b, h3c]
  have g4 : require_api_key db4 (some k4) daily_limit today =
      (Except.ok u4,
        (increment_call_and_check_limit db4 u4.id daily_limit today).2) := by
    simp [require_api_key, headerMissing, h4a, h4b, h4c]
  have g5 : require_api_key db5 (some k5) daily_limit today =
      (Except.ok u5,
        (increment_call_and_check_limit db5 u5.id daily_limit today).2) := by
    simp [require_api_key, headerMissing, h5a, h5b, h5c]
  have hmem : req.template ∈ ALLOWED_FREE_TEMPLATES := by simpa using hreq
  refine ⟨by simp [require_api_key, headerMissing], g2, g3, g4, ?_, ?_⟩
  · unfold create_project
    rw [g4]
    simp [hmem, h4d]
  · unfold create_project
    rw [g5]
    simp [hmem, h5d]

/-- Witness for C7: concrete stores exercise all five gate outcomes (missing
header, unknown key, daily refusal at the limit, pass-through, monthly
refusal, and monthly pass) with dailyLimit 10 and monthLimit 1. -/
theorem request_gate_protocol_witness :
    require_api_key ⟨[], [], [], 0, 0⟩ none 10 ⟨2026, 10, 12⟩ =
      (Except.error ⟨401, "Missing X-API-Key header"⟩, ⟨[], [], [], 0, 0⟩) ∧
    require_api_key ⟨[], [], [], 0, 0⟩ (some "zzz") 10 ⟨2026, 10, 12⟩ =
      (Except.error ⟨401, "Invalid API key"⟩, ⟨[], [], [], 0, 0⟩) ∧
    require_api_key ⟨[⟨1, "a", "a", "K3", "free"⟩],
        [⟨0, 1, ⟨2026, 10, 12⟩, 10, 0⟩], [], 1, 0⟩ (some "K3") 10
        ⟨2026, 10, 12⟩ =
      (Except.error ⟨429, "Daily API call limit exceeded"⟩,
        (increment_call_and_check_limit ⟨[⟨1, "a", "a", "K3", "free"⟩],
          [⟨0, 1, ⟨2026, 10, 12⟩, 10, 0⟩], [], 1, 0⟩ 1 10 ⟨2026, 10, 12⟩).2) ∧
    require_api_key ⟨[⟨1, "b", "b", "K4", "free"⟩],
        [⟨0, 1, ⟨2026, 10, 1⟩, 0, 5⟩], [], 1, 0⟩ (some "K4") 10
        ⟨2026, 10, 12⟩ =
      (Except.ok ⟨1, "b", "b", "K4", "free"⟩,
        (increment_call_and_check_limit ⟨[⟨1, "b", "b", "K4", "free"⟩],
          [⟨0, 1, ⟨2026, 10, 1⟩, 0, 5⟩], [], 1, 0⟩ 1 10 ⟨2026, 10, 12⟩).2) ∧
    create_project ⟨[⟨1, "b", "b", "K4", "free"⟩],
        [⟨0, 1, ⟨2026, 10, 1⟩, 0, 5⟩], [], 1, 0⟩
        ⟨"p", "flask", false, false, none⟩ (some "K4") 10 1 ⟨2026, 10, 12⟩ =
      (Except.error ⟨429, "Monthly project limit exceeded"⟩,
        (increment_project_and_check_limit
          (increment_call_and_check_limit ⟨[⟨1, "b", "b", "K4", "free"⟩],
            [⟨0, 1, ⟨2026, 10, 1⟩, 0, 5⟩], [], 1, 0⟩ 1 10 ⟨2026, 10, 12⟩).2
          1 1 ⟨2026, 10, 12⟩).2) ∧
    create_project ⟨[⟨1, "c", "c", "K5", "free"⟩], [], [], 0, 0⟩
        ⟨"p", "flask", false, false, none⟩ (some "K5") 10 1 ⟨2026, 10, 12⟩ =
      (Except.ok (),
        (increment_project_and_check_limit
          (increment_call_and_check_limit
            ⟨[⟨1, "c", "c", "K5", "free"⟩], [], [], 0, 0⟩ 1 10
            ⟨2026, 10, 12⟩).2 1 1 ⟨2026, 10, 12⟩).2) :=
  request_gate_protocol 10 1 ⟨2026, 10, 12⟩
    ⟨[], [], [], 0, 0⟩
    ⟨[], [], [], 0, 0⟩ "zzz" (by decide) (by decide)
    ⟨[⟨1, "a", "a", "K3", "free"⟩], [⟨0, 1, ⟨2026, 10, 12⟩, 10, 0⟩], [], 1, 0⟩
      "K3" ⟨1, "a", "a", "K3", "free"⟩ (by decide) (by decide) (by decide)
    ⟨[⟨1, "b", "b", "K4", "free"⟩], [⟨0, 1, ⟨2026, 10, 1⟩, 0, 5⟩], [], 1, 0⟩
      "K4" ⟨1, "b", "b", "K4", "free"⟩ (by decide) (by decide) (by decide)
    ⟨"p", "flask", false, false, none⟩ (by decide) (by decide)
    ⟨[⟨1, "c", "c", "K5", "free"⟩], [], [], 0, 0⟩ "K5"
      ⟨1, "c", "c", "K5", "free"⟩ (by decide) (by decide) (by decide)
      (by decide)

/-- Claim C8: `update_preset` with a (nonempty) partial field-set changes
exactly the supplied fields of the row matching both id and owner — each
supplied column takes its new value, each unsupplied column keeps its stored
value, id and owner are untouched — and returns the post-update row; when no
row matches both id and owner it returns none ("not found") and the state is
unchanged. (An empty field-set is degenerate: the source then builds an
UPDATE with an empty SET clause, which the database rejects.) -/
theorem update_preset_supplied_fields (db : DB) (uid preset_id : Nat)
    (d : PresetUpdate) (p : Preset)
    (hne : d.isEmpty = false)
    (hp : get_preset db uid preset_id = some p)
    (db2 : DB) (pid2 : Nat)
    (h2 : get_preset db2 uid pid2 = none) :
    update_preset db uid preset_id d =
      Except.ok (some (applyUpdate d p),
        { db with presets := db.presets.map (fun q =>
            if q.id == preset_id && q.user_id == uid then applyUpdate d q
            else q) }) ∧
    (applyUpdate d p).name = d.name.getD p.name ∧
    (applyUpdate d p).template = d.template.getD p.template ∧
    (applyUpdate d p).git_init = d.git_init.getD p.git_init ∧
    (applyUpdate d p).use_venv = d.use_venv.getD p.use_venv ∧
    (applyUpdate d p).license_type = d.license_type.getD p.license_type ∧
    (applyUpdate d p).id = p.id ∧
    (applyUpdate d p).user_id = p.user_id ∧
    update_preset db2 uid pid2 d = Except.ok (none, db2) := by
  have hinv : ∀ x : Preset,
      (((if x.id == preset_id && x.user_id == uid then applyUpdate d x
          else x).id == preset_id) &&
        ((if x.id == preset_id && x.user_id == uid then applyUpdate d x
          else x).user_id == uid)) =
      ((x.id == preset_id) && (x.user_id == uid)) := by
    intro x
    by_cases hx : (x.id == preset_id && x.user_id == uid) = true
    · simp only [hx, if_true]
      exact hx
    · have hx2 : (x.id == preset_id && x.user_id == uid) = false := by
        simpa using hx
      simp [hx2]
  refine ⟨?_, rfl, rfl, rfl, rfl, rfl, rfl, rfl, ?_⟩
  · unfold update_preset
    rw [if_neg (by simp [hne] : ¬ d.isEmpty = true)]
    have hq : get_preset { db with presets := db.presets.map (fun q =>
        if q.id == preset_id && q.user_id == uid then applyUpdate d q
        else q) } uid preset_id = some (applyUpdate d p) := by
      unfold get_preset at hp ⊢
      dsimp only
      rw [find?_map_inv _ _ _ hinv, hp]
      have hpred := List.find?_some hp
      show some (if (p.id == preset_id && p.user_id == uid) = true then
        applyUpdate d p else p) = some (applyUpdate d p)
      rw [if_pos hpred]
    rw [hq]
  · unfold update_preset
    rw [if_neg (by simp [hne] : ¬ d.isEmpty = true)]
    unfold get_preset at h2
    have hall := List.find?_eq_none.mp h2
    have hid : db2.presets.map (fun q =>
        if q.id == pid2 && q.user_id == uid then applyUpdate d q else q) =
        db2.presets := by
      rw [List.map_congr_left (g := fun q => q), List.map_id']
      intro q hqm
      have hqf : (q.id == pid2 && q.user_id == uid) = false := by
        have := hall q hqm
        simp only [Bool.not_eq_true] at this
        exact this
      simp [hqf]
    rw [hid]
    unfold get_preset
    rw [h2]

/-- Witness for C8: updating only `git_init` of a stored preset flips that
flag and keeps every other column; updating a nonexistent id reports not
found and leaves the store unchanged. -/
theorem update_preset_supplied_fields_witness :
    update_preset ⟨[], [], [⟨5, 1, "p1", "flask", false, false, none⟩], 0, 6⟩
        1 5 ⟨none, none, some true, none, none⟩ =
      Except.ok (some ⟨5, 1, "p1", "flask", true, false, none⟩,
        ⟨[], [], [⟨5, 1, "p1", "flask", true, false, none⟩], 0, 6⟩) ∧
    update_preset ⟨[], [], [⟨5, 1, "p1", "flask", false, false, none⟩], 0, 6⟩
        1 99 ⟨none, none, some true, none, none⟩ =
      Except.ok (none,
        ⟨[], [], [⟨5, 1, "p1", "flask", false, false, none⟩], 0, 6⟩) :=
  ⟨(update_preset_supplied_fields
      ⟨[], [], [⟨5, 1, "p1", "flask", false, false, none⟩], 0, 6⟩ 1 5
      ⟨none, none, some true, none, none⟩
      ⟨5, 1, "p1", "flask", false, false, none⟩ (by decide) (by decide)
      ⟨[], [], [⟨5, 1, "p1", "flask", false, false, none⟩], 0, 6⟩ 99
      (by decide)).1,
   (update_preset_supplied_fields
      ⟨[], [], [⟨5, 1, "p1", "flask", false, false, none⟩], 0, 6⟩ 1 5
      ⟨none, none, some true, none, none⟩
      ⟨5, 1, "p1", "flask", false, false, none⟩ (by decide) (by decide)
      ⟨[], [], [⟨5, 1, "p1", "flask", false, false, none⟩], 0, 6⟩ 99
      (by decide)).2.2.2.2.2.2.2.2⟩

/-- `Option.or` with an empty right argument. -/
theorem option_or_none {α : Type} (o : Option α) : o.or none = o := by
  cases o <;> rfl

/-- Claim C9: preset operations are owner-scoped. For users A ≠ B and any
preset row p owned by B: reads by A (get, list) are unchanged by the
presence of p; every row listed for A is owned by A; update and delete by A
act exactly as they would without p, with p left untouched at the end of the
table; and delete by A keeps every row owned by B. -/
theorem preset_owner_isolation (A B : Nat) (hAB : A ≠ B) (db : DB)
    (p : Preset) (hpB : p.user_id = B) (preset_id : Nat) (d : PresetUpdate) :
    get_preset { db with presets := db.presets ++ [p] } A preset_id =
      get_preset db A preset_id ∧
    list_presets { db with presets := db.presets ++ [p] } A =
      list_presets db A ∧
    (∀ q ∈ list_presets db A, q.user_id = A) ∧
    update_preset { db with presets := db.presets ++ [p] } A preset_id d =
      Except.map (fun x => (x.1, { x.2 with presets := x.2.presets ++ [p] }))
        (update_preset db A preset_id d) ∧
    delete_preset { db with presets := db.presets ++ [p] } A preset_id =
      ((delete_preset db A preset_id).1,
        { (delete_preset db A preset_id).2 with presets :=
            (delete_preset db A preset_id).2.presets ++ [p] }) ∧
    (∀ q ∈ db.presets, q.user_id = B →
      q ∈ (delete_preset db A preset_id).2.presets) := by
  have hA : (p.user_id == A) = false := by
    simp [hpB]
    omega
  have hpred : (p.id == preset_id && p.user_id == A) = false := by
    simp [hA]
  have hnotA : ¬ p.user_id = A := by
    rw [hpB]
    exact fun h => hAB h.symm
  refine ⟨?_, ?_, ?_, ?_, ?_, ?_⟩
  · unfold get_preset
    dsimp only
    rw [List.find?_append]
    simp [hpred, option_or_none]
  · unfold list_presets
    dsimp only
    rw [List.filter_append]
    simp [hA]
  · intro q hq
    unfold list_presets at hq
    rw [List.mem_filter] at hq
    simpa using hq.2
  · by_cases hemp : d.isEmpty = true
    · simp [update_preset, hemp, Except.map]
    · simp [update_preset, hemp, Except.map, get_preset, List.map_append,
        List.find?_append, option_or_none, hnotA]
  · unfold delete_preset
    dsimp only
    rw [List.filter_append]
    have hkp : [p].filter (fun q =>
        !(q.id == preset_id && q.user_id == A)) = [p] := by
      simp [hnotA]
    rw [hkp]
    simp [List.length_append]
  · intro q hq hqB
    unfold delete_preset
    dsimp only
    rw [List.mem_filter]
    refine ⟨hq, ?_⟩
    have hqA : (q.user_id == A) = false := by
      simp [hqB]
      omega
    simp [hqA]

/-- Witness for C9: user 1 cannot observe or disturb a preset of user 2 —
get, update and delete by user 1 behave identically with and without the
user-2 row, which survives untouched. -/
theorem preset_owner_isolation_witness :
    get_preset ⟨[], [], [⟨1, 1, "a", "flask", false, false, none⟩,
        ⟨9, 2, "b", "fastapi", true, false, none⟩], 0, 2⟩ 1 1 =
      get_preset ⟨[], [], [⟨1, 1, "a", "flask", false, false, none⟩], 0, 2⟩
        1 1 ∧
    list_presets ⟨[], [], [⟨1, 1, "a", "flask", false, false, none⟩,
        ⟨9, 2, "b", "fastapi", true, false, none⟩], 0, 2⟩ 1 =
      list_presets ⟨[], [], [⟨1, 1, "a", "flask", false, false, none⟩], 0, 2⟩
        1 ∧
    update_preset ⟨[], [], [⟨1, 1, "a", "flask", false, false, none⟩,
        ⟨9, 2, "b", "fastapi", true, false, none⟩], 0, 2⟩ 1 1
        ⟨some "x", none, none, none, none⟩ =
      Except.map (fun x => (x.1, { x.2 with presets :=
          x.2.presets ++ [⟨9, 2, "b", "fastapi", true, false, none⟩] }))
        (update_preset
          ⟨[], [], [⟨1, 1, "a", "flask", false, false, none⟩], 0, 2⟩ 1 1
          ⟨some "x", none, none, none, none⟩) ∧
    delete_preset ⟨[], [], [⟨1, 1, "a", "flask", false, false, none⟩,
        ⟨9, 2, "b", "fastapi", true, false, none⟩], 0, 2⟩ 1 1 =
      ((delete_preset
          ⟨[], [], [⟨1, 1, "a", "flask", false, false, none⟩], 0, 2⟩ 1 1).1,
        { (delete_preset
            ⟨[], [], [⟨1, 1, "a", "flask", false, false, none⟩], 0, 2⟩
            1 1).2 with presets :=
          (delete_preset
            ⟨[], [], [⟨1, 1, "a", "flask", false, false, none⟩], 0, 2⟩
            1 1).2.presets ++ [⟨9, 2, "b", "fastapi", true, false, none⟩] }) :=
  ⟨(preset_owner_isolation 1 2 (by decide)
      ⟨[], [], [⟨1, 1, "a", "flask", false, false, none⟩], 0, 2⟩
      ⟨9, 2, "b", "fastapi", true, false, none⟩ (by decide) 1
      ⟨some "x", none, none, none, none⟩).1,
   (preset_owner_isolation 1 2 (by decide)
      ⟨[], [], [⟨1, 1, "a", "flask", false, false, none⟩], 0, 2⟩
      ⟨9, 2, "b", "fastapi", true, false, none⟩ (by decide) 1
      ⟨some "x", none, none, none, none⟩).2.1,
   (preset_owner_isolation 1 2 (by decide)
      ⟨[], [], [⟨1, 1, "a", "flask", false, false, none⟩], 0, 2⟩
      ⟨9, 2, "b", "fastapi", true, false, none⟩ (by decide) 1
      ⟨some "x", none, none, none, none⟩).2.2.2.1,
   (preset_owner_isolation 1 2 (by decide)
      ⟨[], [], [⟨1, 1, "a", "flask", false, false, none⟩], 0, 2⟩
      ⟨9, 2, "b", "fastapi", true, false, none⟩ (by decide) 1
      ⟨some "x", none, none, none, none⟩).2.2.2.2.1⟩

/-- `dailyCount` reads the found row. -/
theorem dailyCount_of_find (db : DB) (uid : Nat) (today : Date)
    (row : UsageLog) (h : find_usage db uid today = some row) :
    dailyCount db uid today = row.calls_today := by
  unfold dailyCount
  rw [h]

/-- `dailyCount` is zero when no row exists. -/
theorem dailyCount_of_none (db : DB) (uid : Nat) (today : Date)
    (h : find_usage db uid today = none) :
    dailyCount db uid today = 0 := by
  unfold dailyCount
  rw [h]

/-- An allowed daily check increments the stored counter for (user, today)
by exactly one (creating the row at 1 when absent). -/
theorem dailyCount_succ_of_allowed (db : DB) (uid daily_limit : Nat)
    (today : Date)
    (h : (increment_call_and_check_limit db uid daily_limit today).1
      = true) :
    dailyCount (increment_call_and_check_limit db uid daily_limit today).2
        uid today = dailyCount db uid today + 1 := by
  unfold increment_call_and_check_limit at h ⊢
  cases hf : find_usage db uid today with
  | none =>
      show dailyCount { db with
          usage_logs := db.usage_logs ++
            [⟨db.next_log_id, uid, today, 1, 0⟩],
          next_log_id := db.next_log_id + 1 } uid today =
        dailyCount db uid today + 1
      rw [dailyCount_of_find _ _ _ _ (find_usage_insert db uid today 1 0 hf),
        dailyCount_of_none db uid today hf]
  | some r =>
      by_cases hc : r.calls_today + 1 > daily_limit
      · exfalso
        rw [hf] at h
        unfold dailyCommit at h
        simp [hc] at h
      · have hstep : dailyCommit db uid daily_limit today (some r) =
            (true, { db with usage_logs := db.usage_logs.map (fun x =>
              if x.id == r.id then
                { x with calls_today := x.calls_today + 1 }
              else x) }) := by
          simp [dailyCommit, hc]
        rw [hstep]
        show dailyCount { db with
            usage_logs := db.usage_logs.map (fun x =>
              if x.id == r.id then
                { x with calls_today := x.calls_today + 1 }
              else x) } uid today = dailyCount db uid today + 1
        rw [dailyCount_of_find _ _ _ _
            (find_usage_update_calls db uid today r hf),
          dailyCount_of_find db uid today r hf]

/-- The daily quota check never touches the presets table. -/
theorem inc_call_presets (db : DB) (uid daily_limit : Nat) (today : Date) :
    (increment_call_and_check_limit db uid daily_limit today).2.presets =
      db.presets := by
  unfold increment_call_and_check_limit dailyCommit
  cases find_usage db uid today with
  | none => rfl
  | some r =>
      by_cases hc : r.calls_today + 1 > daily_limit <;> simp [hc]

/-- Claim C10: an authenticated request to a protected endpoint consumes one
unit of the daily quota in the gate before the handler runs, and the
increment survives a handler failure: a preset creation refused with 403 for
a disallowed template and a preset deletion answering 404 for a missing row
both leave the daily counter one higher than before the request. -/
theorem gate_increments_before_handler (db : DB) (k : String) (u : User)
    (daily_limit : Nat) (today : Date) (pin : PresetIn) (preset_id : Nat)
    (hk : (k == "") = false)
    (hu : get_user_by_api_key db k = some u)
    (hq : (increment_call_and_check_limit db u.id daily_limit today).1
      = true)
    (htpl : ALLOWED_FREE_TEMPLATES.contains pin.template = false)
    (hnp : ∀ q ∈ db.presets,
      (q.id == preset_id && q.user_id == u.id) = false) :
    (add_preset db pin (some k) daily_limit today).1 =
      Except.error ⟨403, "Template not allowed for free tier"⟩ ∧
    dailyCount (add_preset db pin (some k) daily_limit today).2 u.id today =
      dailyCount db u.id today + 1 ∧
    (remove_preset db preset_id (some k) daily_limit today).1 =
      Except.error ⟨404, "Preset not found"⟩ ∧
    dailyCount (remove_preset db preset_id (some k) daily_limit today).2
        u.id today = dailyCount db u.id today + 1 := by
  have ggate : require_api_key db (some k) daily_limit today =
      (Except.ok u,
        (increment_call_and_check_limit db u.id daily_limit today).2) := by
    simp [require_api_key, headerMissing, hk, hu, hq]
  have hcount := dailyCount_succ_of_allowed db u.id daily_limit today hq
  have hdel : delete_preset
      (increment_call_and_check_limit db u.id daily_limit today).2 u.id
      preset_id =
      (false, { (increment_call_and_check_limit db u.id daily_limit
          today).2 with presets :=
        (increment_call_and_check_limit db u.id daily_limit
          today).2.presets }) := by
    unfold delete_preset
    have hfil : (increment_call_and_check_limit db u.id daily_limit
        today).2.presets.filter (fun p =>
          !(p.id == preset_id && p.user_id == u.id)) =
        (increment_call_and_check_limit db u.id daily_limit
          today).2.presets := by
      apply List.filter_eq_self.mpr
      intro a ha
      rw [inc_call_presets] at ha
      simp [hnp a ha]
    rw [hfil]
    simp
  have hmem : pin.template ∉ ALLOWED_FREE_TEMPLATES := by
    simpa using htpl
  refine ⟨?_, ?_, ?_, ?_⟩
  · unfold add_preset
    rw [ggate]
    simp [hmem]
  · unfold add_preset
    rw [ggate]
    simp [hmem]
    exact hcount
  · unfold remove_preset
    rw [ggate]
    simp only [hdel]
    rfl
  · unfold remove_preset
    rw [ggate]
    simp only [hdel]
    exact hcount

/-- Witness for C10: a registered user with a fresh day issues a preset
creation with a disallowed template (403) and a deletion of a missing preset
(404); both responses fail yet both leave the daily counter at one. -/
theorem gate_increments_before_handler_witness :
    (add_preset ⟨[⟨1, "alice", "a@x", "K", "free"⟩], [], [], 0, 0⟩
        ⟨"p", "django", false, false, none⟩ (some "K") 10
        ⟨2026, 10, 12⟩).1 =
      Except.error ⟨403, "Template not allowed for free tier"⟩ ∧
    dailyCount (add_preset ⟨[⟨1, "alice", "a@x", "K", "free"⟩], [], [], 0, 0⟩
        ⟨"p", "django", false, false, none⟩ (some "K") 10
        ⟨2026, 10, 12⟩).2 1 ⟨2026, 10, 12⟩ =
      dailyCount ⟨[⟨1, "alice", "a@x", "K", "free"⟩], [], [], 0, 0⟩ 1
        ⟨2026, 10, 12⟩ + 1 ∧
    (remove_preset ⟨[⟨1, "alice", "a@x", "K", "free"⟩], [], [], 0, 0⟩ 42
        (some "K") 10 ⟨2026, 10, 12⟩).1 =
      Except.error ⟨404, "Preset not found"⟩ ∧
    dailyCount (remove_preset ⟨[⟨1, "alice", "a@x", "K", "free"⟩], [], [],
        0, 0⟩ 42 (some "K") 10 ⟨2026, 10, 12⟩).2 1 ⟨2026, 10, 12⟩ =
      dailyCount ⟨[⟨1, "alice", "a@x", "K", "free"⟩], [], [], 0, 0⟩ 1
        ⟨2026, 10, 12⟩ + 1 :=
  gate_increments_before_handler
    ⟨[⟨1, "alice", "a@x", "K", "free"⟩], [], [], 0, 0⟩ "K"
    ⟨1, "alice", "a@x", "K", "free"⟩ 10 ⟨2026, 10, 12⟩
    ⟨"p", "django", false, false, none⟩ 42
    (by decide) (by decide) (by decide) (by decide)
    (by intro q hq; simp at hq)

/-- Removing the i-th element drops its contribution from a filter count. -/
theorem filter_length_eraseIdx {α : Type} (p : α → Bool) :
    ∀ (l : List α) (i : Nat) (x : α), l.get? i = some x →
      (l.filter p).length =
        ((l.eraseIdx i).filter p).length + (if p x then 1 else 0) := by
  intro l
  induction l with
  | nil => intro i x h; simp at h
  | cons a t ih =>
    intro i x h
    cases i with
    | zero =>
      rw [List.get?_cons_zero] at h
      cases h
      by_cases hp : p a = true <;> simp [List.eraseIdx, List.filter_cons, hp]
    | succ n =>
      rw [List.get?_cons_succ] at h
      have hrec := ih n x h
      by_cases hp : p a = true <;>
        simp [List.eraseIdx, List.filter_cons, hp, hrec] <;> omega

/-- One pool event never increases the pool footprint: an acquire moves a
connection from the queue to a borrower (or opens an unpooled fallback), and
a release moves it back — or loses it, when the replacement open fails. -/
theorem poolFootprint_step (createOk : Bool) (w : PoolWorld) (e : PoolEvent) :
    poolFootprint (poolStep createOk w e) ≤ poolFootprint w := by
  cases e with
  | acq =>
    simp only [poolStep]
    cases hp : w.st.pool with
    | nil =>
      cases createOk <;>
        simp [poolFootprint, acquireConn, List.filter_append,
          AcqResult.isPooled, hp]
    | cons c rest =>
      simp [poolFootprint, acquireConn, List.filter_append,
        AcqResult.isPooled, hp]
      omega
  | rel i usable =>
    simp only [poolStep]
    cases hg : w.outstanding.get? i with
    | none => simp
    | some r =>
      have hcnt := filter_length_eraseIdx AcqResult.isPooled
        w.outstanding i r hg
      cases r with
      | pooled c =>
        simp [AcqResult.isPooled] at hcnt
        cases usable <;> cases createOk <;>
          simp [poolFootprint, releaseConn] <;> omega
      | fallback c =>
        simp [AcqResult.isPooled] at hcnt
        simp [poolFootprint, releaseConn]
        omega
      | crash =>
        simp [AcqResult.isPooled] at hcnt
        simp [poolFootprint, releaseConn]
        omega

/-- A pool step leaves the configured ceiling unchanged. -/
theorem poolStep_maxConn (createOk : Bool) (w : PoolWorld) (e : PoolEvent) :
    (poolStep createOk w e).st.maxConn = w.st.maxConn := by
  cases e with
  | acq =>
    simp only [poolStep]
    cases hp : w.st.pool with
    | nil => cases createOk <;> simp [acquireConn, hp]
    | cons c rest => simp [acquireConn, hp]
  | rel i usable =>
    simp only [poolStep]
    cases hg : w.outstanding.get? i with
    | none => rfl
    | some r =>
      cases r <;> cases usable <;> cases createOk <;> simp [releaseConn]

/-- Along any history of acquire and release events, if the initial
footprint is within the ceiling then the queue length never exceeds
`max_connections` — the bound the source inherits from the queue created
with `maxsize=POOL_MAX` at db.py:38. -/
theorem pool_never_exceeds_max (createOk : Bool) (w : PoolWorld)
    (evs : List PoolEvent) (h : poolFootprint w ≤ w.st.maxConn) :
    (poolRun createOk w evs).st.pool.length ≤ w.st.maxConn := by
  induction evs generalizing w with
  | nil =>
    unfold poolRun
    simp only [List.foldl_nil]
    calc w.st.pool.length ≤ poolFootprint w := Nat.le_add_right _ _
      _ ≤ w.st.maxConn := h
  | cons e t ih =>
    unfold poolRun
    simp only [List.foldl_cons]
    have hstep := poolFootprint_step createOk w e
    have hmax := poolStep_maxConn createOk w e
    have hrun := ih (poolStep createOk w e) (by rw [hmax]; omega)
    rw [hmax] at hrun
    exact hrun
